import Mathlib

/-!
Shallow embedding of the joke-manager application, covering the two front-end
variants in the repository: the Flask app (`src/app/app.py`) and the Streamlit
app (`src/joke_manager_app.py`).

External collaborators (the OpenAI embedding and chat services, the Gemini
structured-generation service, and the Supabase vector store with its two
similarity-search RPCs `match_joke_bridges` and `match_jokes`) are modelled as
oracle functions collected in an `Env` record.  A Python call that may raise is
modelled with `Except String` (the error value is the exception text); a Python
function that returns `None` on failure is modelled with `Option`.  Store
accesses issued by campaign generation are additionally recorded in a `StoreOp`
log so that read-only (frame) properties can be stated.
-/

set_option maxRecDepth 8000

namespace JokeManager

/-- Embedding vectors as returned by the embedding service
(`text-embedding-3-small`); the numeric content is irrelevant to the claims,
so entries are rationals. -/
abbrev Emb := List ℚ

/-- Python `text.replace("\n", " ")`: the pattern is a single character, so
the replacement is a character-wise map. -/
def collapseNewlines (s : String) : String :=
  String.mk (s.data.map (fun c => if c = '\n' then ' ' else c))

/-- Python `str.strip()` with no argument: drop whitespace from both ends. -/
def pyStrip (s : String) : String :=
  String.mk
    (((s.data.dropWhile Char.isWhitespace).reverse.dropWhile
        Char.isWhitespace).reverse)

/-- The input normalization of `get_embedding`:
`text.replace("\n", " ").strip()`. -/
def normText (s : String) : String := pyStrip (collapseNewlines s)

/-- `get_embedding` from `src/app/app.py` lines 66-75.  The text is
newline-collapsed (`text.replace("\n", " ")`) and stripped; empty normalized
text returns `None` (modelled `Except.ok none`) without consulting the
service.  The Flask variant has no `try`/`except`: a service failure
propagates to the caller, modelled as `Except.error`. -/
def get_embedding (svc : String → Except String Emb) (text : String) :
    Except String (Option Emb) :=
  let t := normText text
  if t = "" then Except.ok none
  else (svc t).map some

/-- `get_embedding` from `src/joke_manager_app.py` lines 547-560.  Same
normalization, but the service call is wrapped in `try`/`except` and a
failure returns `None`. -/
def get_embedding_st (svc : String → Except String Emb) (text : String) :
    Option Emb :=
  let t := normText text
  if t = "" then none
  else
    match svc t with
    | Except.ok v => some v
    | Except.error _ => none

/-- `expand_headline_to_themes` (`src/app/app.py` lines 117-142 and
`src/joke_manager_app.py` lines 591-612, identical behaviour).  The chat
service is consulted with a prompt built from the headline (the oracle is
keyed on the headline, the fixed prompt text being irrelevant); on success
the stripped completion is returned, on any exception the original headline
is returned unchanged. -/
def expand_headline_to_themes (svc : String → Except String String)
    (headline : String) : String :=
  match svc headline with
  | Except.ok content => pyStrip content
  | Except.error _ => headline

/-- A parsed JSON object as produced by `json.loads` on a Gemini response,
restricted to the five fields the pipeline reads.  A field is `none` when the
key is absent from the parsed object (the code reads them with
`dict.get(key, default)`). -/
structure V12Obj where
  engine_selected : Option String
  reasoning : Option String
  brainstorming : Option (List String)
  selected_strategy : Option String
  draft_joke : Option String
deriving DecidableEq, Repr

def openBrace : Char := Char.ofNat 123

def closeBrace : Char := Char.ofNat 125

/-- Index of the last occurrence of `c` in `cs`, if any. -/
def lastIdxOf (c : Char) (cs : List Char) : Option Nat :=
  match cs.reverse.findIdx? (fun ch => ch = c) with
  | none => none
  | some k => some (cs.length - 1 - k)

/-- The best-effort extraction `re.search(r'\x7b[\s\S]*\x7d', result_text)`
from `src/app/app.py` line 285: a greedy match running from the first
opening brace to the last closing brace of the text (the match exists iff
some closing brace occurs strictly after the first opening brace). -/
def extractBraced (s : String) : Option String :=
  let cs := s.data
  match cs.findIdx? (fun ch => ch = openBrace), lastIdxOf closeBrace cs with
  | some i, some j =>
      if i < j then some (String.mk ((cs.drop i).take (j - i + 1))) else none
  | _, _ => none

/-- Python `s[:k]` on a string. -/
def takeFirst (k : Nat) (s : String) : String := String.mk (s.data.take k)

/-- Return value of the Flask `generate_v12_joke`: either a parsed object
with `success = True` stamped on it, or a failure dict
(`success = False`, an error string, and optionally the raw text prefix). -/
inductive GenReturn where
  | okr (r : V12Obj)
  | fail (error : String) (raw : Option String)
deriving DecidableEq, Repr

/-- `generate_v12_joke` from `src/app/app.py` lines 246-295.  `configured`
models `gemini_client` being non-`None`; `jsonParse` models `json.loads`
(`Except.error` is a raised `JSONDecodeError`); `raw` models the Gemini call
(`response.text`, or a raised exception).  Strict parse failure triggers the
brace extraction; a parse failure on the extracted block propagates to the
outer handler; no extraction match yields the dedicated failure dict carrying
`result_text[:300]`.  No field of the parsed object is validated. -/
def generate_v12_joke (configured : Bool)
    (jsonParse : String → Except String V12Obj)
    (raw : Except String String) : GenReturn :=
  if !configured then GenReturn.fail "Gemini API not configured" none
  else
    match raw with
    | Except.error e => GenReturn.fail e none
    | Except.ok result_text =>
      match jsonParse result_text with
      | Except.ok r => GenReturn.okr r
      | Except.error _ =>
        match extractBraced result_text with
        | some sub =>
          match jsonParse sub with
          | Except.ok r => GenReturn.okr r
          | Except.error e => GenReturn.fail e none
        | none =>
            GenReturn.fail "Failed to parse Gemini response"
              (some (takeFirst 300 result_text))

/-- Return value of the Streamlit `generate_v12_joke`: the parsed dict as-is
(no success stamp), or the failure dict. -/
inductive StGenRet where
  | parsed (r : V12Obj)
  | fail (error : String)
deriving DecidableEq, Repr

/-- `generate_v12_joke` from `src/joke_manager_app.py` lines 790-817: the
response text is given to `json.loads` directly; any exception (service or
parse) is caught and turned into the failure dict.  There is no brace
extraction and no field validation. -/
def generate_v12_joke_st (configured : Bool)
    (jsonParse : String → Except String V12Obj)
    (raw : Except String String) : StGenRet :=
  if !configured then StGenRet.fail "Gemini API not configured"
  else
    match raw with
    | Except.error e => StGenRet.fail e
    | Except.ok t =>
      match jsonParse t with
      | Except.ok r => StGenRet.parsed r
      | Except.error e => StGenRet.fail e

/-- A row returned by the similarity-search RPCs (the fields the pipeline
reads via `match.get`). -/
structure MatchRow where
  id : Nat
  searchable_text : String
  similarity : ℚ
  bridge_content : String
deriving DecidableEq, Repr

/-- Round-half-to-even on a rational, modelling Python `round` on the
similarity score. -/
def pyRoundInt (x : ℚ) : ℤ :=
  if x - (⌊x⌋ : ℚ) < 1/2 then ⌊x⌋
  else if 1/2 < x - (⌊x⌋ : ℚ) then ⌊x⌋ + 1
  else if ⌊x⌋ % 2 = 0 then ⌊x⌋ else ⌊x⌋ + 1

/-- Python `round(x, 3)` on the similarity score. -/
def pyRound3 (x : ℚ) : ℚ := (pyRoundInt (1000 * x) : ℚ) / 1000

/-- The reference-joke preview from `src/app/app.py` line 851:
`reference_joke[:150] + '...' if len(reference_joke) > 150 else
reference_joke`. -/
def truncate150 (s : String) : String :=
  if s.length > 150 then String.mk (s.data.take 150) ++ "..." else s

/-- The external collaborators, as oracle functions.  `bridgeRpc` is the
`match_joke_bridges` RPC (query embedding and `match_count` only: it takes
no similarity threshold); `jokesRpc` is the `match_jokes` RPC (query
embedding, `match_threshold`, `match_count`). -/
structure Env where
  geminiConfigured : Bool
  themeSvc : String → Except String String
  embedSvc : String → Except String Emb
  bridgeRpc : Option Emb → Nat → Except String (List MatchRow)
  jokesRpc : Option Emb → ℚ → Nat → Except String (List MatchRow)
  jsonParse : String → Except String V12Obj
  geminiRaw : String → String → Except String String

/-- The per-candidate Transplant Engine call as issued by the Flask campaign
loop (`generate_v12_joke(reference_joke, headline)`). -/
def genFor (env : Env) (headline : String) (m : MatchRow) : GenReturn :=
  generate_v12_joke env.geminiConfigured env.jsonParse
    (env.geminiRaw m.searchable_text headline)

/-- One emitted campaign item, `src/app/app.py` lines 849-859. -/
structure CampaignItem where
  original_id : Nat
  reference_joke : String
  bridge_content : String
  similarity : ℚ
  engine : String
  reasoning : String
  brainstorming : List String
  selected_strategy : String
  joke : String
deriving DecidableEq, Repr

/-- Assembly of an emitted item from a candidate row and a successful
Transplant result (`src/app/app.py` lines 849-859; missing result fields
default via `generated.get(key, default)`). -/
def mkItem (m : MatchRow) (g : V12Obj) : CampaignItem :=
  { original_id := m.id
    reference_joke := truncate150 m.searchable_text
    bridge_content := m.bridge_content
    similarity := pyRound3 m.similarity
    engine := g.engine_selected.getD ""
    reasoning := g.reasoning.getD ""
    brainstorming := g.brainstorming.getD []
    selected_strategy := g.selected_strategy.getD ""
    joke := g.draft_joke.getD "" }

/-- The Flask per-candidate loop, `src/app/app.py` lines 836-866: each
candidate is processed in retrieval order; a failed call (exception or
`success = False`) is skipped with `continue`, a successful one appends an
item. -/
def campaignLoop (env : Env) (headline : String) :
    List MatchRow → List CampaignItem
  | [] => []
  | m :: rest =>
    match genFor env headline m with
    | GenReturn.okr g => mkItem m g :: campaignLoop env headline rest
    | GenReturn.fail _ _ => campaignLoop env headline rest

/-- Operations issued against the Supabase store. -/
inductive StoreOp where
  | rpcBridges
  | rpcJokes
  | insertSeg
  | updateSeg
  | deleteSeg
deriving DecidableEq, Repr

/-- An operation is a read (a similarity-search RPC) as opposed to a
mutation. -/
def StoreOp.isRead : StoreOp → Bool
  | .rpcBridges => true
  | .rpcJokes => true
  | _ => false

/-- `match_threshold` of the `match_jokes` fallback inside
`generate_campaign` (`src/app/app.py` line 820): `0.10`. -/
def campaignFallbackThreshold : ℚ := 1/10

/-- `match_threshold` of the `match_jokes` fallback inside the `/api/search`
route (`src/app/app.py` line 334): `0.15`. -/
def searchFallbackThreshold : ℚ := 15/100

/-- The similarity-search step of the Flask `generate_campaign`, lines
807-823: `match_joke_bridges` (no threshold) first, and on any exception the
`match_jokes` fallback over `content_embedding` with threshold `0.10`.  The
issued store operations are logged. -/
def flaskMatches (env : Env) (qe : Option Emb) (count : Nat) :
    Except String (List MatchRow) × List StoreOp :=
  match env.bridgeRpc qe count with
  | Except.ok d => (Except.ok d, [StoreOp.rpcBridges])
  | Except.error _ =>
      (env.jokesRpc qe campaignFallbackThreshold count,
       [StoreOp.rpcBridges, StoreOp.rpcJokes])

/-- The similarity-search step of the Flask `/api/search` route, lines
320-337: `match_joke_bridges` with `match_count = 15` (no threshold), and on
exception `match_jokes` with threshold `0.15`. -/
def searchMatches (env : Env) (qe : Option Emb) :
    Except String (List MatchRow) :=
  match env.bridgeRpc qe 15 with
  | Except.ok d => Except.ok d
  | Except.error _ => env.jokesRpc qe searchFallbackThreshold 15

/-- The JSON payload of a successful `generate_campaign` response. -/
structure CampaignResponse where
  success : Bool
  headline : String
  themes : String
  total_generated : Nat
  jokes : List CampaignItem
  message : Option String
deriving DecidableEq, Repr

/-- Result of the `generate_campaign` route: the success payload, or an HTTP
error response (`jsonify(\x7b'error': ...\x7d)` with a 4xx/5xx status). -/
inductive CampaignResult where
  | okr (r : CampaignResponse)
  | httpError (msg : String)
deriving DecidableEq, Repr

/-- `generate_campaign` from `src/app/app.py` lines 781-879: validate the
headline and the Gemini configuration, expand the headline to themes, embed
the themes (an embedding-service exception aborts the route with an error
response), run the bridge search with its fallback, return the empty
success payload when no candidate matched, and otherwise run the
per-candidate loop.  The second component is the log of store operations
issued. -/
def generate_campaign (env : Env) (headline0 : String) (count : Nat) :
    CampaignResult × List StoreOp :=
  let headline := pyStrip headline0
  if headline = "" then (CampaignResult.httpError "No headline provided", [])
  else if !env.geminiConfigured then
    (CampaignResult.httpError "Gemini API not configured. Check geminiapi_key.env", [])
  else
    let themes := expand_headline_to_themes env.themeSvc headline
    match get_embedding env.embedSvc themes with
    | Except.error e => (CampaignResult.httpError e, [])
    | Except.ok qe =>
      let (res, ops) := flaskMatches env qe count
      (match res with
       | Except.error e => CampaignResult.httpError e
       | Except.ok [] =>
          CampaignResult.okr
            { success := true, headline := headline, themes := themes
              total_generated := 0, jokes := []
              message := some "No matching jokes found in database." }
       | Except.ok (m :: ms) =>
          let results := campaignLoop env headline (m :: ms)
          CampaignResult.okr
            { success := true, headline := headline, themes := themes
              total_generated := results.length, jokes := results
              message := none },
       ops)

/-- One item of the Streamlit campaign results
(`src/joke_manager_app.py` lines 879-883): only the untruncated reference
text, the bridge text, and the raw generated dict — no candidate id and no
similarity score. -/
structure StCampaignItem where
  reference : String
  bridge : String
  generated : V12Obj
deriving DecidableEq, Repr

/-- The candidate-retrieval step of the Streamlit campaign tab, lines
854-862: `match_joke_bridges` with `match_count = count * 2`, truncated to
`count` rows; on any exception the candidate list is simply empty — there is
no `match_jokes` fallback. -/
def st_candidates (env : Env) (qe : Option Emb) (count : Nat) :
    List MatchRow × List StoreOp :=
  match env.bridgeRpc qe (count * 2) with
  | Except.ok d => (d.take count, [StoreOp.rpcBridges])
  | Except.error _ => ([], [StoreOp.rpcBridges])

/-- The per-candidate Transplant call issued by the Streamlit loop. -/
def st_genFor (env : Env) (headline : String) (m : MatchRow) : StGenRet :=
  generate_v12_joke_st env.geminiConfigured env.jsonParse
    (env.geminiRaw m.searchable_text headline)

/-- The Streamlit campaign loop, lines 872-884: an item is kept iff the
generated dict contains the key `draft_joke`
(`if gen_res and "draft_joke" in gen_res`). -/
def st_campaignLoop (env : Env) (headline : String) :
    List MatchRow → List StCampaignItem
  | [] => []
  | m :: rest =>
    match st_genFor env headline m with
    | StGenRet.parsed g =>
        if g.draft_joke.isSome then
          { reference := m.searchable_text, bridge := m.bridge_content
            generated := g } :: st_campaignLoop env headline rest
        else st_campaignLoop env headline rest
    | StGenRet.fail _ => st_campaignLoop env headline rest

/-- The whole Streamlit campaign run (lines 841-903): themes, embedding
(soft), candidates, loop.  Returns the displayed result list and the store
operations issued. -/
def st_generate_campaign (env : Env) (headline : String) (count : Nat) :
    List StCampaignItem × List StoreOp :=
  let themes := expand_headline_to_themes env.themeSvc headline
  let qe := get_embedding_st env.embedSvc themes
  let (cands, ops) := st_candidates env qe count
  (st_campaignLoop env headline cands, ops)

/-- The update payload written by an edit operation: a field is `some v`
when the corresponding column is included in the `update(...)` dict. -/
structure SegmentUpdate where
  original_text : Option String
  searchable_text : Option String
  meta_tags : Option (List String)
  embedding : Option Emb
deriving DecidableEq, Repr

/-- `update_segment` from `src/app/app.py` lines 375-395: the embedding is
recomputed from the new `searchable_text` (when it is non-empty) and written
together with the text update whenever the embedding call returns a truthy
value; an embedding-service exception aborts the route (no update is
executed). -/
def update_segment (embedSvc : String → Except String Emb)
    (original searchable : String) (tags : List String) :
    Except String SegmentUpdate :=
  if searchable = "" then
    Except.ok { original_text := some original, searchable_text := some searchable
                meta_tags := some tags, embedding := none }
  else
    match get_embedding embedSvc searchable with
    | Except.error e => Except.error e
    | Except.ok eo =>
        Except.ok { original_text := some original
                    searchable_text := some searchable
                    meta_tags := some tags
                    embedding := match eo with
                      | some v => if v = [] then none else some v
                      | none => none }

/-- The Streamlit DB-explorer edit popover, `src/joke_manager_app.py` lines
984-990: `update(\x7b"searchable_text": new_text\x7d)` — only the text
column is written; the embedding is not recomputed. -/
def tab_db_edit_update (new_text : String) : SegmentUpdate :=
  { original_text := none, searchable_text := some new_text
    meta_tags := none, embedding := none }

/-- `chunk_size` of the transcript chunking loop (`src/app/app.py` line 514,
`src/joke_manager_app.py` line 1044). -/
def chunk_size : Nat := 6000

/-- `overlap` of the transcript chunking loop (`src/app/app.py` line 515,
`src/joke_manager_app.py` line 1045). -/
def chunk_overlap : Nat := 2000

/-- The body of the chunking `while` loop, iterated with an explicit fuel so
that it is structurally recursive and executable: starting at `pos`, while
`pos < n` emit the span `(pos, min (pos + 6000) n)` and advance to
`end_pos - 2000` if `end_pos < n`, else to `n`.  `chunkGo_fuel_irrelevant`
below shows any fuel of at least `n - pos` computes the full run of the
loop, which is therefore terminating. -/
def chunkGo : Nat → Nat → Nat → List (Nat × Nat)
  | 0, _, _ => []
  | fuel + 1, n, pos =>
    if pos < n then
      let e := min (pos + 6000) n
      (pos, e) :: chunkGo fuel n (if e < n then e - 2000 else n)
    else []

/-- The spans `(start, end_pos)` produced by the chunking loop on a
transcript of length `n` (`src/app/app.py` lines 518-528). -/
def chunkSpans (n : Nat) : List (Nat × Nat) := chunkGo n n 0

/-- The chunk texts `raw_text[pos:end_pos]` produced by `process_video`. -/
def process_video_chunks (s : String) : List String :=
  (chunkSpans s.data.length).map
    (fun p => String.mk ((s.data.drop p.1).take (p.2 - p.1)))

/-! ### Concrete oracle instances used by witnesses and counterexamples -/

/-- Environment for the empty-candidate scenario: theme expansion fails
(falling back to the headline), embedding succeeds, and the bridge search
returns zero rows. -/
def env1 : Env :=
  { geminiConfigured := true
    themeSvc := fun _ => Except.error "theme service down"
    embedSvc := fun _ => Except.ok [1]
    bridgeRpc := fun _ _ => Except.ok []
    jokesRpc := fun _ _ _ => Except.ok []
    jsonParse := fun _ => Except.error "unused"
    geminiRaw := fun _ _ => Except.ok "unused" }

/-- A transplant result with all five fields present. -/
def g2obj : V12Obj :=
  { engine_selected := some "Type B"
    reasoning := some "the behavior fits"
    brainstorming := some ["Option 1", "Option 2", "Option 3"]
    selected_strategy := some "Option 2"
    draft_joke := some "a drafted joke" }

def row21 : MatchRow :=
  { id := 1, searchable_text := "first reference", similarity := 9/10
    bridge_content := "bridge one" }

def row22 : MatchRow :=
  { id := 2, searchable_text := "FAILME", similarity := 1/2
    bridge_content := "bridge two" }

def row23 : MatchRow :=
  { id := 3, searchable_text := "third reference", similarity := 1/10
    bridge_content := "bridge three" }

/-- Environment in which the Transplant call fails exactly on the middle
candidate `row22` (its raw response does not parse and contains no braces). -/
def env2 : Env :=
  { geminiConfigured := true
    themeSvc := fun _ => Except.ok "themes"
    embedSvc := fun _ => Except.ok [1]
    bridgeRpc := fun _ _ => Except.ok [row21, row22, row23]
    jokesRpc := fun _ _ _ => Except.ok []
    jsonParse := fun s =>
      if s = "FAILRAW" then Except.error "Expecting value" else Except.ok g2obj
    geminiRaw := fun ref _ =>
      if ref = "FAILME" then Except.ok "FAILRAW" else Except.ok "GOODRAW" }

def rowA : MatchRow :=
  { id := 7, searchable_text := "a reference joke", similarity := 4/5
    bridge_content := "a bridge" }

/-- Environment in which the bridge RPC is unavailable while the
content-embedding search has a matching row. -/
def env3 : Env :=
  { geminiConfigured := true
    themeSvc := fun _ => Except.ok "themes"
    embedSvc := fun _ => Except.ok [1]
    bridgeRpc := fun _ _ => Except.error "function match_joke_bridges does not exist"
    jokesRpc := fun _ _ _ => Except.ok [rowA]
    jsonParse := fun _ => Except.error "unused"
    geminiRaw := fun _ _ => Except.ok "unused" }

/-- The text of an empty JSON object. -/
def emptyObjStr : String := String.mk [openBrace, closeBrace]

/-- The parse of an empty JSON object: none of the five fields present. -/
def emptyObj : V12Obj :=
  { engine_selected := none, reasoning := none, brainstorming := none
    selected_strategy := none, draft_joke := none }

/-- A `json.loads` oracle that accepts exactly the empty-object text (as the
real `json.loads` does) and raises on anything else. -/
def parse0 : String → Except String V12Obj := fun s =>
  if s = emptyObjStr then Except.ok emptyObj else Except.error "Expecting value"

/-- Environment whose campaign run succeeds on the single candidate
`row9`. -/
def g9 : V12Obj :=
  { engine_selected := some "Type C"
    reasoning := some "the scale fits"
    brainstorming := some ["Option 1", "Option 2", "Option 3"]
    selected_strategy := some "Option 1"
    draft_joke := some "a new joke" }

def row9 : MatchRow :=
  { id := 42, searchable_text := "a short reference", similarity := 123/1000
    bridge_content := "bridge nine" }

def env9 : Env :=
  { geminiConfigured := true
    themeSvc := fun _ => Except.ok "themes"
    embedSvc := fun _ => Except.ok [1]
    bridgeRpc := fun _ _ => Except.ok [row9]
    jokesRpc := fun _ _ _ => Except.ok []
    jsonParse := fun _ => Except.ok g9
    geminiRaw := fun _ _ => Except.ok "raw" }

def item9 : CampaignItem := mkItem row9 g9

/-- A reference joke of 200 characters, longer than the 150-character
preview cap. -/
def longRef : String := String.mk (List.replicate 200 'a')

def g9s : V12Obj :=
  { engine_selected := some "Type A"
    reasoning := some "a pun fits"
    brainstorming := some ["Option 1", "Option 2", "Option 3"]
    selected_strategy := some "Option 3"
    draft_joke := some "a streamlit joke" }

def row9s : MatchRow :=
  { id := 8, searchable_text := longRef, similarity := 9/10
    bridge_content := "bridge s" }

def env9s : Env :=
  { geminiConfigured := true
    themeSvc := fun _ => Except.ok "themes"
    embedSvc := fun _ => Except.ok [1]
    bridgeRpc := fun _ _ => Except.ok [row9s]
    jokesRpc := fun _ _ _ => Except.ok []
    jsonParse := fun _ => Except.ok g9s
    geminiRaw := fun _ _ => Except.ok "raw" }

/-- An embedding oracle that always succeeds, for the edit-payload
evaluation. -/
def embedSvc8 : String → Except String Emb := fun _ => Except.ok [2, 3]

/-- Environment for the read-only witness run. -/
def env7 : Env :=
  { geminiConfigured := true
    themeSvc := fun _ => Except.ok "themes"
    embedSvc := fun _ => Except.ok [1]
    bridgeRpc := fun _ _ => Except.ok []
    jokesRpc := fun _ _ _ => Except.ok []
    jsonParse := fun _ => Except.error "unused"
    geminiRaw := fun _ _ => Except.ok "unused" }

/-- A 7000-character transcript, long enough for two overlapping chunks. -/
def s10 : String := String.mk (List.replicate 7000 'x')

/-! ### Helper lemmas -/

/-- Round-half-even stays within one unit of the floor. -/
theorem pyRoundInt_bounds (x : ℚ) : ⌊x⌋ ≤ pyRoundInt x ∧ pyRoundInt x ≤ ⌊x⌋ + 1 := by
  unfold pyRoundInt
  split_ifs <;> omega

/-- Round-half-even is monotone. -/
theorem pyRoundInt_mono {x y : ℚ} (h : x ≤ y) : pyRoundInt x ≤ pyRoundInt y := by
  rcases lt_or_le ⌊x⌋ ⌊y⌋ with hf | hf
  · have h1 := (pyRoundInt_bounds x).2
    have h2 := (pyRoundInt_bounds y).1
    omega
  · have hfe : ⌊x⌋ = ⌊y⌋ := le_antisymm (Int.floor_le_floor h) hf
    unfold pyRoundInt
    rw [hfe]
    have hr : x - (⌊y⌋ : ℚ) ≤ y - (⌊y⌋ : ℚ) := by linarith
    split_ifs <;> first | omega | linarith

/-- Python `round(x, 3)` is monotone. -/
theorem pyRound3_mono {x y : ℚ} (h : x ≤ y) : pyRound3 x ≤ pyRound3 y := by
  unfold pyRound3
  have h0 : pyRoundInt (1000 * x) ≤ pyRoundInt (1000 * y) :=
    pyRoundInt_mono (by linarith)
  have h1 : (pyRoundInt (1000 * x) : ℚ) ≤ (pyRoundInt (1000 * y) : ℚ) := by
    exact_mod_cast h0
  linarith

/-- A candidate whose Transplant call succeeds contributes its item to the
loop output, regardless of failures elsewhere in the list. -/
theorem campaignLoop_mem (env : Env) (headline : String) :
    ∀ (data : List MatchRow) (m : MatchRow) (g : V12Obj), m ∈ data →
      genFor env headline m = GenReturn.okr g →
      mkItem m g ∈ campaignLoop env headline data := by
  intro data
  induction data with
  | nil => intro m g hm _; cases hm
  | cons a rest ih =>
    intro m g hm hg
    rcases List.mem_cons.mp hm with rfl | hm2
    · simp only [campaignLoop, hg]
      exact List.mem_cons_self _ _
    · have htail := ih m g hm2 hg
      simp only [campaignLoop]
      cases hgen : genFor env headline a with
      | okr g2 => exact List.mem_cons_of_mem _ htail
      | fail e r => exact htail

/-- Every item of the loop output comes from a candidate whose Transplant
call succeeded. -/
theorem campaignLoop_src (env : Env) (headline : String) :
    ∀ (data : List MatchRow) (it : CampaignItem),
      it ∈ campaignLoop env headline data →
      ∃ m, m ∈ data ∧ ∃ g, genFor env headline m = GenReturn.okr g ∧
        it = mkItem m g := by
  intro data
  induction data with
  | nil => intro it hit; simp [campaignLoop] at hit
  | cons a rest ih =>
    intro it hit
    simp only [campaignLoop] at hit
    cases hgen : genFor env headline a with
    | okr g =>
      rw [hgen] at hit
      rcases List.mem_cons.mp hit with rfl | hit2
      · exact ⟨a, List.mem_cons_self _ _, g, hgen, rfl⟩
      · rcases ih it hit2 with ⟨m, hm, g2, hg2, he⟩
        exact ⟨m, List.mem_cons_of_mem _ hm, g2, hg2, he⟩
    | fail e r =>
      rw [hgen] at hit
      rcases ih it hit with ⟨m, hm, g2, hg2, he⟩
      exact ⟨m, List.mem_cons_of_mem _ hm, g2, hg2, he⟩

/-- The loop output preserves descending similarity order: skipping failed
candidates does not reorder survivors, and `round(·, 3)` is monotone. -/
theorem campaignLoop_pairwise (env : Env) (headline : String) :
    ∀ data : List MatchRow,
      data.Pairwise (fun a b => b.similarity ≤ a.similarity) →
      (campaignLoop env headline data).Pairwise
        (fun a b => b.similarity ≤ a.similarity) := by
  intro data
  induction data with
  | nil => intro _; simp [campaignLoop]
  | cons a rest ih =>
    intro hp
    rcases List.pairwise_cons.mp hp with ⟨ha, hrest⟩
    simp only [campaignLoop]
    cases hgen : genFor env headline a with
    | fail e r => exact ih hrest
    | okr g =>
      refine List.pairwise_cons.mpr ⟨?_, ih hrest⟩
      intro b hb
      rcases campaignLoop_src env headline rest b hb with ⟨m, hm, g2, _, rfl⟩
      show (mkItem m g2).similarity ≤ (mkItem a g).similarity
      simp only [mkItem]
      exact pyRound3_mono (ha m hm)

/-- Once the position has reached the length, the loop emits nothing. -/
theorem chunkGo_stop (fuel n pos : Nat) (h : ¬ pos < n) :
    chunkGo fuel n pos = [] := by
  cases fuel with
  | zero => rfl
  | succ fuel => simp [chunkGo, h]

/-- The loop run does not depend on the fuel, provided the fuel is at least
`n - pos`: the `while` loop terminates within `n - pos` iterations. -/
theorem chunkGo_fuel_irrelevant (n : Nat) :
    ∀ f1 f2 pos, n - pos ≤ f1 → n - pos ≤ f2 →
      chunkGo f1 n pos = chunkGo f2 n pos := by
  intro f1
  induction f1 with
  | zero =>
    intro f2 pos h1 _
    have hnp : ¬ pos < n := by omega
    rw [chunkGo_stop 0 n pos hnp, chunkGo_stop f2 n pos hnp]
  | succ f1 ih =>
    intro f2 pos h1 h2
    by_cases hp : pos < n
    · cases f2 with
      | zero => omega
      | succ f2 =>
        simp only [chunkGo, if_pos hp]
        have hmin : min (pos + 6000) n ≤ n := Nat.min_le_right _ _
        by_cases he : min (pos + 6000) n < n
        · have heq : min (pos + 6000) n = pos + 6000 := by omega
          rw [if_pos he]
          congr 1
          exact ih f2 _ (by omega) (by omega)
        · rw [if_neg he]
          congr 1
          exact ih f2 n (by omega) (by omega)
    · rw [chunkGo_stop _ n pos hp, chunkGo_stop f2 n pos hp]

/-- Bounds on every span emitted by the loop: the start is at or after the
current position, and the end is `min (start + 6000) n`, strictly above the
start and at most `n`. -/
theorem chunkGo_bounds (n : Nat) :
    ∀ fuel pos, n - pos ≤ fuel → ∀ p ∈ chunkGo fuel n pos,
      pos ≤ p.1 ∧ p.2 = min (p.1 + 6000) n ∧ p.1 < p.2 ∧ p.2 ≤ n := by
  intro fuel
  induction fuel with
  | zero =>
    intro pos h p hp
    have hnp : ¬ pos < n := by omega
    rw [chunkGo_stop 0 n pos hnp] at hp
    cases hp
  | succ fuel ih =>
    intro pos h p hp
    by_cases hpn : pos < n
    · simp only [chunkGo, if_pos hpn] at hp
      rcases List.mem_cons.mp hp with rfl | hp2
      · refine ⟨Nat.le_refl _, rfl, ?_, Nat.min_le_right _ _⟩
        simp only
        omega
      · by_cases hm : min (pos + 6000) n < n
        · have heq : min (pos + 6000) n = pos + 6000 := by omega
          rw [if_pos hm, heq] at hp2
          have hb := ih (pos + 6000 - 2000) (by omega) p hp2
          exact ⟨by omega, hb.2.1, hb.2.2.1, hb.2.2.2⟩
        · rw [if_neg hm] at hp2
          rw [chunkGo_stop fuel n n (by omega)] at hp2
          cases hp2
    · rw [chunkGo_stop _ n pos hpn] at hp
      cases hp

/-- Every index from the current position up to `n` is covered by some
emitted span. -/
theorem chunkGo_cover (n : Nat) :
    ∀ fuel pos i, n - pos ≤ fuel → pos ≤ i → i < n →
      ∃ p ∈ chunkGo fuel n pos, p.1 ≤ i ∧ i < p.2 := by
  intro fuel
  induction fuel with
  | zero => intro pos i h1 h2 h3; omega
  | succ fuel ih =>
    intro pos i h1 h2 h3
    have hpn : pos < n := by omega
    simp only [chunkGo, if_pos hpn]
    by_cases hi : i < min (pos + 6000) n
    · exact ⟨(pos, min (pos + 6000) n), List.mem_cons_self _ _, h2, hi⟩
    · have hm : min (pos + 6000) n < n := by omega
      have heq : min (pos + 6000) n = pos + 6000 := by omega
      rw [if_pos hm, heq]
      rcases ih (pos + 6000 - 2000) i (by omega) (by omega) h3 with ⟨p, hp, hle, hlt⟩
      exact ⟨p, List.mem_cons_of_mem _ hp, hle, hlt⟩

/-- Consecutive spans step by exactly 4000 and overlap by exactly 2000
characters. -/
theorem chunkGo_chain (n : Nat) :
    ∀ fuel pos, n - pos ≤ fuel →
      List.Chain' (fun p q : Nat × Nat =>
          q.1 = p.1 + 4000 ∧ p.2 = q.1 + 2000 ∧ q.1 + 2000 ≤ q.2)
        (chunkGo fuel n pos) := by
  intro fuel
  induction fuel with
  | zero =>
    intro pos h
    have hnp : ¬ pos < n := by omega
    rw [chunkGo_stop 0 n pos hnp]
    exact List.chain'_nil
  | succ fuel ih =>
    intro pos h
    by_cases hpn : pos < n
    · simp only [chunkGo, if_pos hpn]
      by_cases hm : min (pos + 6000) n < n
      · have heq : min (pos + 6000) n = pos + 6000 := by omega
        rw [if_pos hm, heq]
        refine List.chain'_cons'.mpr ⟨?_, ih (pos + 6000 - 2000) (by omega)⟩
        intro q hq
        have hq2 : q ∈ chunkGo fuel n (pos + 6000 - 2000) := by
          cases hh : (chunkGo fuel n (pos + 6000 - 2000)).head? with
          | none => rw [hh] at hq; cases hq
          | some q0 =>
            rw [hh] at hq
            cases hq
            exact List.mem_of_mem_head? hh
        have hb := chunkGo_bounds n fuel (pos + 6000 - 2000) (by omega) q hq2
        -- head of the tail starts exactly at the advanced position
        have hstart : q.1 = pos + 6000 - 2000 := by
          cases fuel with
          | zero => omega
          | succ fuel2 =>
            have hpn2 : pos + 6000 - 2000 < n := by omega
            rw [chunkGo, if_pos hpn2, List.head?_cons] at hq
            have h2 := Option.mem_some_iff.mp hq
            rw [← h2]
        refine ⟨by omega, by simp only; omega, ?_⟩
        have := hb.2.1
        omega
      · rw [if_neg hm, chunkGo_stop fuel n n (by omega)]
        exact List.chain'_singleton _
    · rw [chunkGo_stop _ n pos hpn]
      exact List.chain'_nil

/-- The Flask similarity-search step issues either the bridge RPC alone or
the bridge RPC followed by the fallback RPC. -/
theorem flaskMatches_ops (env : Env) (qe : Option Emb) (count : Nat) :
    (flaskMatches env qe count).2 = [StoreOp.rpcBridges]
    ∨ (flaskMatches env qe count).2 = [StoreOp.rpcBridges, StoreOp.rpcJokes] := by
  unfold flaskMatches
  cases env.bridgeRpc qe count with
  | ok d => left; rfl
  | error e => right; rfl

/-- The store operations of a Flask campaign run are exactly those of its
similarity-search step (or none at all when the run aborts earlier). -/
theorem generate_campaign_ops (env : Env) (headline : String) (count : Nat) :
    (generate_campaign env headline count).2 = []
    ∨ ∃ qe, (generate_campaign env headline count).2 =
        (flaskMatches env qe count).2 := by
  simp only [generate_campaign]
  split
  · left; rfl
  · split
    · left; rfl
    · cases hqe : get_embedding env.embedSvc
          (expand_headline_to_themes env.themeSvc (pyStrip headline)) with
      | error e => left; rfl
      | ok qe => right; exact ⟨qe, rfl⟩

/-! ### Claim theorems -/

/-- Claim C1: for every headline and count, if the similarity search returns
zero candidates, `generate_campaign` returns a successful result
(`success = true`) with an empty joke list and the no-matches message — not
an error response. -/
theorem c1_empty_candidates_success (env : Env) (headline : String)
    (count : Nat) (qe : Option Emb) (ops : List StoreOp)
    (hh : (pyStrip headline) ≠ "")
    (hg : env.geminiConfigured = true)
    (he : get_embedding env.embedSvc
        (expand_headline_to_themes env.themeSvc (pyStrip headline)) = Except.ok qe)
    (hm : flaskMatches env qe count = (Except.ok [], ops)) :
    (generate_campaign env headline count).1 =
      CampaignResult.okr
        { success := true, headline := (pyStrip headline)
          themes := expand_headline_to_themes env.themeSvc (pyStrip headline)
          total_generated := 0, jokes := []
          message := some "No matching jokes found in database." } := by
  simp only [generate_campaign]
  rw [if_neg hh]
  rw [if_neg (by simp [hg] : ¬((!env.geminiConfigured) = true))]
  cases hqe : get_embedding env.embedSvc
      (expand_headline_to_themes env.themeSvc (pyStrip headline)) with
  | error e => rw [hqe] at he; cases he
  | ok qe2 =>
    rw [hqe] at he
    injection he with he2
    subst he2
    dsimp only
    rw [hm]

/-- Witness for C1 at a concrete environment: bridge search returns zero
rows for the headline "Traffic". -/
theorem c1_witness :
    (generate_campaign env1 "Traffic" 5).1 =
      CampaignResult.okr
        { success := true, headline := "Traffic", themes := "Traffic"
          total_generated := 0, jokes := []
          message := some "No matching jokes found in database." } :=
  c1_empty_candidates_success env1 "Traffic" 5 (some [1]) [StoreOp.rpcBridges]
    (by decide) rfl rfl rfl

/-- Claim C2: a per-candidate Transplant failure is isolated — every
candidate whose call succeeds contributes its item to the output, no matter
which other candidates fail — and the surviving items keep the original
retrieval order, so when the retrieval scores are non-increasing, so are the
emitted (rounded) similarity scores. -/
theorem c2_failure_isolated_order_preserved (env : Env) (headline : String)
    (data : List MatchRow) :
    (∀ m ∈ data, ∀ g, genFor env headline m = GenReturn.okr g →
        mkItem m g ∈ campaignLoop env headline data)
    ∧ (∀ item ∈ campaignLoop env headline data,
        ∃ m, m ∈ data ∧ ∃ g, genFor env headline m = GenReturn.okr g ∧
          item = mkItem m g)
    ∧ (data.Pairwise (fun a b => b.similarity ≤ a.similarity) →
        (campaignLoop env headline data).Pairwise
          (fun a b => b.similarity ≤ a.similarity)) :=
  ⟨fun m hm g hg => campaignLoop_mem env headline data m g hm hg,
   fun item hitem => campaignLoop_src env headline data item hitem,
   fun hp => campaignLoop_pairwise env headline data hp⟩

/-- Witness for C2: a three-candidate run in which the middle candidate
fails; the last candidate still appears, every output item traces back to a
successful candidate, and the output stays sorted. -/
theorem c2_witness :
    mkItem row23 g2obj ∈ campaignLoop env2 "Diwali" [row21, row22, row23]
    ∧ (∃ m, m ∈ [row21, row22, row23] ∧
        ∃ g, genFor env2 "Diwali" m = GenReturn.okr g ∧
          mkItem row21 g2obj = mkItem m g)
    ∧ (campaignLoop env2 "Diwali" [row21, row22, row23]).Pairwise
        (fun a b => b.similarity ≤ a.similarity) :=
  ⟨(c2_failure_isolated_order_preserved env2 "Diwali" [row21, row22, row23]).1
      row23 (by simp) g2obj rfl,
   (c2_failure_isolated_order_preserved env2 "Diwali" [row21, row22, row23]).2.1
      (mkItem row21 g2obj) (by exact List.mem_cons_self _ _),
   (c2_failure_isolated_order_preserved env2 "Diwali" [row21, row22, row23]).2.2
      (by norm_num [List.pairwise_cons, row21, row22, row23])⟩

/-- Claim C5: if the theme-expansion call fails, `expand_headline_to_themes`
returns the original headline unchanged (and, being a total function, it
propagates no error to the caller). -/
theorem c5_theme_expansion_fallback (svc : String → Except String String)
    (headline e : String) (h : svc headline = Except.error e) :
    expand_headline_to_themes svc headline = headline := by
  simp [expand_headline_to_themes, h]

/-- Witness for C5 at the headline "Traffic". -/
theorem c5_witness :
    expand_headline_to_themes (fun _ => Except.error "service down") "Traffic"
      = "Traffic" :=
  c5_theme_expansion_fallback (fun _ => Except.error "service down")
    "Traffic" "service down" rfl

/-- Claim C8 (code bug): the Streamlit edit popover writes only the
`searchable_text` column — the content embedding is not recomputed — while
the Flask `update_segment` on the same edit recomputes the embedding from
the new text and writes it together with the text update. -/
theorem c8_streamlit_edit_drops_embedding :
    tab_db_edit_update "Edited joke text" =
      { original_text := none, searchable_text := some "Edited joke text"
        meta_tags := none, embedding := none }
    ∧ update_segment embedSvc8 "orig" "Edited joke text" ["tag"] =
      Except.ok
        { original_text := some "orig"
          searchable_text := some "Edited joke text"
          meta_tags := some ["tag"], embedding := some [2, 3] } :=
  ⟨rfl, rfl⟩

/-- Claim C3 counterexample: with the bridge RPC unavailable and a
content-embedding search that would return a matching row, the Streamlit
similarity query yields no candidates at all — it performs no fallback —
while the Flask layer does fall back and obtains the row. -/
theorem c3_counterexample :
    (st_candidates env3 (some [1]) 5).1 = []
    ∧ (flaskMatches env3 (some [1]) 5).1 = Except.ok [rowA] :=
  ⟨rfl, rfl⟩

/-- Claim C3 (amended): in the Flask app, when the bridge RPC fails, the
search route falls back to `match_jokes` with the non-zero threshold `0.15`
and `generate_campaign` with the non-zero threshold `0.10`, while the
primary bridge RPC takes no threshold argument at all; the Streamlit
variant performs no fallback — its candidate list is empty when the bridge
RPC fails. -/
theorem c3_flask_fallback_streamlit_none (env : Env) (qe : Option Emb)
    (count : Nat) (err : String)
    (hb : ∀ k, env.bridgeRpc qe k = Except.error err) :
    (flaskMatches env qe count).1 = env.jokesRpc qe campaignFallbackThreshold count
    ∧ searchMatches env qe = env.jokesRpc qe searchFallbackThreshold 15
    ∧ (st_candidates env qe count).1 = []
    ∧ campaignFallbackThreshold ≠ 0 ∧ searchFallbackThreshold ≠ 0 := by
  refine ⟨?_, ?_, ?_,
    by norm_num [campaignFallbackThreshold],
    by norm_num [searchFallbackThreshold]⟩
  · simp only [flaskMatches, hb count]
  · simp only [searchMatches, hb 15]
  · simp only [st_candidates, hb (count * 2)]

/-- Witness for C3 (amended) at the concrete environment `env3`. -/
theorem c3_witness :
    (flaskMatches env3 (some [1]) 5).1 =
      env3.jokesRpc (some [1]) campaignFallbackThreshold 5
    ∧ searchMatches env3 (some [1]) =
      env3.jokesRpc (some [1]) searchFallbackThreshold 15
    ∧ (st_candidates env3 (some [1]) 5).1 = []
    ∧ campaignFallbackThreshold ≠ 0 ∧ searchFallbackThreshold ≠ 0 :=
  c3_flask_fallback_streamlit_none env3 (some [1]) 5
    "function match_joke_bridges does not exist" (fun _ => rfl)

/-- Claim C4 counterexample: the Flask `generate_v12_joke` returns a
success on a response that parses to an object with none of the five result
fields present — the caller performs no validation of the result fields. -/
theorem c4_counterexample :
    generate_v12_joke true parse0 (Except.ok emptyObjStr) = GenReturn.okr emptyObj
    ∧ emptyObj.engine_selected = none
    ∧ emptyObj.reasoning = none
    ∧ emptyObj.brainstorming = none
    ∧ emptyObj.selected_strategy = none
    ∧ emptyObj.draft_joke = none :=
  ⟨rfl, rfl, rfl, rfl, rfl, rfl⟩

/-- Claim C4 (amended): in the Flask variant, when strict parsing fails
`generate_v12_joke` attempts a best-effort extraction of the block from the
first opening to the last closing brace and re-parses it before concluding
the call failed; any successfully parsed object is returned as a success
without validating the five result fields.  The Streamlit variant performs
neither extraction nor validation: a strict-parse failure is final. -/
theorem c4_extraction_no_validation (p : String → Except String V12Obj)
    (text : String) :
    (∀ r, p text = Except.ok r →
        generate_v12_joke true p (Except.ok text) = GenReturn.okr r)
    ∧ (∀ e sub r, p text = Except.error e → extractBraced text = some sub →
        p sub = Except.ok r →
        generate_v12_joke true p (Except.ok text) = GenReturn.okr r)
    ∧ (∀ e, p text = Except.error e → extractBraced text = none →
        generate_v12_joke true p (Except.ok text) =
          GenReturn.fail "Failed to parse Gemini response"
            (some (takeFirst 300 text)))
    ∧ (∀ e, p text = Except.error e →
        generate_v12_joke_st true p (Except.ok text) = StGenRet.fail e) := by
  refine ⟨?_, ?_, ?_, ?_⟩
  · intro r h
    simp [generate_v12_joke, h]
  · intro e sub r h1 h2 h3
    simp [generate_v12_joke, h1, h2, h3]
  · intro e h1 h2
    simp [generate_v12_joke, h1, h2]
  · intro e h
    simp [generate_v12_joke_st, h]

/-- Witness for C4 (amended): strict parsing of `junk` plus an empty object
fails, the braced block is extracted and parses, and the call succeeds. -/
theorem c4_witness :
    generate_v12_joke true parse0 (Except.ok ("junk" ++ emptyObjStr)) =
      GenReturn.okr emptyObj :=
  (c4_extraction_no_validation parse0 ("junk" ++ emptyObjStr)).2.1
    "Expecting value" emptyObjStr emptyObj rfl (by decide) rfl

/-- Claim C6 counterexample: in the Flask variant, a failing embedding
service makes `get_embedding` propagate the exception instead of returning
`None`. -/
theorem c6_counterexample :
    get_embedding (fun _ => Except.error "rate limited") "hello" =
      Except.error "rate limited"
    ∧ get_embedding (fun _ => Except.error "rate limited") "hello" ≠
      Except.ok none := by
  refine ⟨rfl, ?_⟩
  intro hcon
  rw [show get_embedding (fun _ => Except.error "rate limited") "hello" =
      Except.error "rate limited" from rfl] at hcon
  cases hcon

/-- Claim C6 (amended): both variants collapse newlines and strip the input,
and return `None` on empty normalized input without consulting the service
(the result does not depend on the service oracle at all); on a service
failure the Streamlit variant returns `None` while the Flask variant
propagates the exception to its caller. -/
theorem c6_normalization_and_failure (svc : String → Except String Emb)
    (text : String) :
    (normText text = "" →
        get_embedding svc text = Except.ok none
        ∧ get_embedding_st svc text = none
        ∧ ∀ svc2, get_embedding svc2 text = Except.ok none
            ∧ get_embedding_st svc2 text = none)
    ∧ (∀ e, normText text ≠ "" → svc (normText text) = Except.error e →
        get_embedding svc text = Except.error e
        ∧ get_embedding_st svc text = none) := by
  constructor
  · intro h
    refine ⟨?_, ?_, fun svc2 => ⟨?_, ?_⟩⟩ <;>
      simp [get_embedding, get_embedding_st, h]
  · intro e hne hsvc
    constructor <;>
      simp [get_embedding, get_embedding_st, hne, hsvc, Except.map]

/-- Witness for C6 (amended): whitespace-and-newline input yields `None`
with no service call in both variants. -/
theorem c6_witness :
    get_embedding (fun _ => Except.error "boom") " \n " = Except.ok none
    ∧ get_embedding_st (fun _ => Except.error "boom") " \n " = none := by
  have h := (c6_normalization_and_failure (fun _ => Except.error "boom")
    " \n ").1 (by decide)
  exact ⟨h.1, h.2.1⟩

/-- Claim C7: campaign generation is read-only with respect to the store —
every store operation issued by a Flask `generate_campaign` run, and by the
Streamlit candidate retrieval, is a similarity-search RPC, never an insert,
update, or delete. -/
theorem c7_generation_read_only (env : Env) (headline : String) (count : Nat) :
    (∀ op ∈ (generate_campaign env headline count).2, op.isRead = true)
    ∧ (∀ qe, ∀ op ∈ (st_candidates env qe count).2, op.isRead = true) := by
  constructor
  · intro op hop
    rcases generate_campaign_ops env headline count with h | ⟨qe, h⟩
    · rw [h] at hop; cases hop
    · rw [h] at hop
      rcases flaskMatches_ops env qe count with h2 | h2
      · rw [h2] at hop
        rcases List.mem_cons.mp hop with rfl | hop2
        · rfl
        · cases hop2
      · rw [h2] at hop
        rcases List.mem_cons.mp hop with rfl | hop2
        · rfl
        · rcases List.mem_cons.mp hop2 with rfl | hop3
          · rfl
          · cases hop3
  · intro qe op hop
    unfold st_candidates at hop
    revert hop
    cases env.bridgeRpc qe (count * 2) with
    | ok d =>
      intro hop
      rcases List.mem_cons.mp hop with rfl | hop2
      · rfl
      · cases hop2
    | error e =>
      intro hop
      rcases List.mem_cons.mp hop with rfl | hop2
      · rfl
      · cases hop2

/-- Witness for C7: the bridge RPC issued by a concrete run is a read. -/
theorem c7_witness : StoreOp.isRead StoreOp.rpcBridges = true :=
  (c7_generation_read_only env7 "Traffic" 5).1 StoreOp.rpcBridges
    (by exact List.mem_cons_self _ _)

/-- Claim C9 (amended): every item emitted by the Flask campaign loop comes
from a retrieved candidate with a successful Transplant call and carries the
candidate id, the reference joke truncated to 150 characters with an
ellipsis suffix exactly when longer, the candidate bridge text, the
similarity rounded to three decimals, and the five Transplant result fields
(defaults applied for absent fields).  (The Streamlit variant emits only the
untruncated reference, the bridge, and the raw result — see the
counterexample.) -/
theorem c9_item_fields (env : Env) (headline : String) (data : List MatchRow) :
    ∀ item ∈ campaignLoop env headline data,
      ∃ m, m ∈ data ∧ ∃ g, genFor env headline m = GenReturn.okr g
        ∧ item = mkItem m g
        ∧ item.original_id = m.id
        ∧ item.bridge_content = m.bridge_content
        ∧ item.similarity = pyRound3 m.similarity
        ∧ (m.searchable_text.length ≤ 150 →
            item.reference_joke = m.searchable_text)
        ∧ (150 < m.searchable_text.length →
            item.reference_joke =
              String.mk (m.searchable_text.data.take 150) ++ "...")
        ∧ item.engine = g.engine_selected.getD ""
        ∧ item.reasoning = g.reasoning.getD ""
        ∧ item.brainstorming = g.brainstorming.getD []
        ∧ item.selected_strategy = g.selected_strategy.getD ""
        ∧ item.joke = g.draft_joke.getD "" := by
  intro item hitem
  rcases campaignLoop_src env headline data item hitem with ⟨m, hm, g, hg, rfl⟩
  refine ⟨m, hm, g, hg, rfl, rfl, rfl, rfl, ?_, ?_, rfl, rfl, rfl, rfl, rfl⟩
  · intro hle
    simp only [mkItem, truncate150]
    rw [if_neg (by omega)]
  · intro hgt
    simp only [mkItem, truncate150]
    rw [if_pos (by omega)]

/-- Witness for C9 (amended): the single emitted item of a concrete run. -/
theorem c9_witness :
    ∃ m, m ∈ [row9] ∧ ∃ g, genFor env9 "Pollution" m = GenReturn.okr g
      ∧ item9 = mkItem m g
      ∧ item9.original_id = m.id
      ∧ item9.bridge_content = m.bridge_content
      ∧ item9.similarity = pyRound3 m.similarity
      ∧ (m.searchable_text.length ≤ 150 →
          item9.reference_joke = m.searchable_text)
      ∧ (150 < m.searchable_text.length →
          item9.reference_joke =
            String.mk (m.searchable_text.data.take 150) ++ "...")
      ∧ item9.engine = g.engine_selected.getD ""
      ∧ item9.reasoning = g.reasoning.getD ""
      ∧ item9.brainstorming = g.brainstorming.getD []
      ∧ item9.selected_strategy = g.selected_strategy.getD ""
      ∧ item9.joke = g.draft_joke.getD "" :=
  c9_item_fields env9 "Pollution" [row9] item9
    (by exact List.mem_cons_self _ _)

/-- Claim C9 counterexample: the Streamlit campaign run emits its item with
the full 200-character reference joke — not a 150-character ellipsis-suffixed
preview — and with no candidate id or similarity field at all. -/
theorem c9_counterexample :
    (st_generate_campaign env9s "Pollution" 5).1 =
      [{ reference := longRef, bridge := "bridge s", generated := g9s }]
    ∧ 150 < longRef.length
    ∧ truncate150 longRef ≠ longRef :=
  ⟨rfl, by decide, by decide⟩

/-- Claim C10: for every transcript, the chunking loop terminates (any fuel
of at least the transcript length computes its full run), the produced
chunks cover every character, each chunk is at most `chunk_size` characters,
and consecutive chunks start `chunk_size - chunk_overlap` apart and overlap
by exactly `chunk_overlap` characters. -/
theorem c10_chunking (s : String) :
    (∀ fuel, s.data.length ≤ fuel →
        chunkGo fuel s.data.length 0 = chunkSpans s.data.length)
    ∧ (∀ i, i < s.data.length →
        ∃ p ∈ chunkSpans s.data.length, p.1 ≤ i ∧ i < p.2)
    ∧ (∀ c ∈ process_video_chunks s, c.length ≤ chunk_size)
    ∧ List.Chain' (fun p q : Nat × Nat =>
        q.1 = p.1 + (chunk_size - chunk_overlap)
        ∧ p.2 = q.1 + chunk_overlap ∧ q.1 + chunk_overlap ≤ q.2)
      (chunkSpans s.data.length) := by
  refine ⟨?_, ?_, ?_, ?_⟩
  · intro fuel hf
    exact chunkGo_fuel_irrelevant s.data.length fuel s.data.length 0
      (by omega) (by omega)
  · intro i hi
    exact chunkGo_cover s.data.length s.data.length 0 i (by omega)
      (Nat.zero_le _) hi
  · intro c hc
    simp only [process_video_chunks, List.mem_map] at hc
    rcases hc with ⟨p, hp, rfl⟩
    have hb := chunkGo_bounds s.data.length s.data.length 0 (by omega) p hp
    show ((s.data.drop p.1).take (p.2 - p.1)).length ≤ chunk_size
    rw [List.length_take, List.length_drop]
    have h2 := hb.2.1
    simp only [chunk_size]
    omega
  · exact chunkGo_chain s.data.length s.data.length 0 (by omega)

/-- Witness for C10: on a 7000-character transcript, extra fuel changes
nothing and character 6500 is covered; on a short transcript the single
produced chunk respects the size cap. -/
theorem c10_witness :
    chunkGo 9000 s10.data.length 0 = chunkSpans s10.data.length
    ∧ (∃ p ∈ chunkSpans s10.data.length, p.1 ≤ 6500 ∧ 6500 < p.2)
    ∧ ("0123456789" : String).length ≤ chunk_size :=
  ⟨(c10_chunking s10).1 9000
      (by rw [show s10.data = List.replicate 7000 'x' from rfl,
            List.length_replicate]; omega),
   (c10_chunking s10).2.1 6500
      (by rw [show s10.data = List.replicate 7000 'x' from rfl,
            List.length_replicate]; omega),
   (c10_chunking "0123456789").2.2.1 "0123456789" (by decide)⟩

end JokeManager
